import Mathlib

/-!
# seswrapper.h as data

The repository consists of one C header, `pyseswrapper/headers/seswrapper.h`.
It contains two object-like macros, twelve typedefs (three of them anonymous
structs) and 42 function prototypes; it has no function bodies.  The header is
embedded declaration by declaration, in source order and with source line
numbers, as a list of syntax trees.  On top of that sit the few pieces of C
semantics that are needed to read a declaration: macro replacement, typedef
resolution, qualification of array types and the adjustment of array-typed
parameters to pointers.
-/

namespace SesWrapper

/-- Type expressions as they are spelled in the header.  `named` is an
identifier in type position (a typedef name or a macro name); `unsignedChar`
only arises from macro replacement and `record` only from typedef resolution. -/
inductive CType where
  | void
  | char
  | int
  | double
  | unsignedChar
  | named (id : String)
  | record (tag : String)
  | ptr (t : CType)
  | arr (t : CType)
  | const (t : CType)
  deriving DecidableEq, Repr

/-- One member of a struct: `ty name_;`. -/
structure Field where
  ty : CType
  name : String
  deriving DecidableEq, Repr

/-- One parameter of a prototype: `ty name`. -/
structure Param where
  ty : CType
  name : String
  deriving DecidableEq, Repr

/-- The four forms of declaration that occur in the header: `#define`, a
typedef of a type expression, a typedef of an anonymous struct, and a function
prototype.  `conv` is the identifier written between the return type and the
function name, if there is one. -/
inductive Decl where
  | define (name : String) (body : List String)
  | typedef (ty : CType) (name : String)
  | typedefStruct (fields : List Field) (name : String)
  | proto (ret : CType) (conv : Option String) (name : String) (params : List Param)
  deriving DecidableEq, Repr

/-- A declaration together with the source lines it spans. -/
structure Entry where
  first : Nat
  last : Nat
  decl : Decl
  deriving DecidableEq, Repr

/-- The contents of `seswrapper.h`, one entry per declaration. -/
def seswrapper : List Entry :=
  [ ⟨1, 1, .define "STDCALL" ["__stdcall"]⟩,
    ⟨2, 2, .define "_bool" ["unsigned", "char"]⟩,
    ⟨4, 4, .typedef (.arr .char) "String"⟩,
    ⟨5, 5, .typedef (.ptr (.named "String")) "PString"⟩,
    ⟨7, 7, .typedef (.arr .double) "VectorDouble"⟩,
    ⟨8, 8, .typedef (.ptr (.named "Vector")) "PVectorDouble"⟩,
    ⟨10, 10, .typedef (.arr .int) "VectorInt32"⟩,
    ⟨11, 11, .typedef (.ptr (.named "VectorInt32")) "PVectorInt32"⟩,
    ⟨13, 22, .typedefStruct
      [⟨.named "_bool", "timerControlled_"⟩,
       ⟨.int, "xChannels_"⟩,
       ⟨.int, "yChannels_"⟩,
       ⟨.int, "maxSlices_"⟩,
       ⟨.int, "maxChannels_"⟩,
       ⟨.int, "frameRate_"⟩,
       ⟨.named "_bool", "adcPresent_"⟩,
       ⟨.named "_bool", "discPresent_"⟩]
      "DetectorInfo"⟩,
    ⟨23, 23, .typedef (.ptr (.named "DetectorInfo")) "PDetectorInfo"⟩,
    ⟨25, 32, .typedefStruct
      [⟨.int, "firstXChannel_"⟩,
       ⟨.int, "lastXChannel_"⟩,
       ⟨.int, "firstYChannel_"⟩,
       ⟨.int, "lastYChannel_"⟩,
       ⟨.int, "slices_"⟩,
       ⟨.named "_bool", "adcMode_"⟩]
      "DetectorRegion"⟩,
    ⟨33, 33, .typedef (.ptr (.named "DetectorRegion")) "PDetectorRegion"⟩,
    ⟨35, 42, .typedefStruct
      [⟨.named "_bool", "fixed_"⟩,
       ⟨.double, "highEnergy_"⟩,
       ⟨.double, "lowEnergy_"⟩,
       ⟨.double, "centerEnergy_"⟩,
       ⟨.double, "energyStep_"⟩,
       ⟨.int, "dwellTime_"⟩]
      "AnalyzerRegion"⟩,
    ⟨43, 43, .typedef (.ptr (.named "AnalyzerRegion")) "PAnalyzerRegion"⟩,
    ⟨45, 45, .proto .int (some "STDCALL") "WRP_Initialize"
      [⟨.ptr .void, "reserved"⟩]⟩,
    ⟨46, 46, .proto .int (some "STDCALL") "WRP_Finalize"
      []⟩,
    ⟨47, 47, .proto .int (some "STDCALL") "WRP_GetProperty"
      [⟨.const (.named "String"), "property"⟩, ⟨.int, "index"⟩, ⟨.ptr .void, "value"⟩, ⟨.ptr .int, "size"⟩]⟩,
    ⟨48, 48, .proto .int (some "STDCALL") "WRP_GetPropertyBool"
      [⟨.const (.named "String"), "property"⟩, ⟨.int, "index"⟩, ⟨.ptr (.named "_bool"), "value"⟩, ⟨.ptr .int, "size"⟩]⟩,
    ⟨49, 49, .proto .int (some "STDCALL") "WRP_GetPropertyInteger"
      [⟨.const (.named "String"), "property"⟩, ⟨.int, "index"⟩, ⟨.ptr .int, "value"⟩, ⟨.ptr .int, "size"⟩]⟩,
    ⟨50, 50, .proto .int (some "STDCALL") "WRP_GetPropertyDouble"
      [⟨.const (.named "String"), "property"⟩, ⟨.int, "index"⟩, ⟨.ptr .double, "value"⟩, ⟨.ptr .int, "size"⟩]⟩,
    ⟨51, 51, .proto .int (some "STDCALL") "WRP_GetPropertyString"
      [⟨.const (.named "String"), "property"⟩, ⟨.int, "index"⟩, ⟨.named "String", "value"⟩, ⟨.ptr .int, "size"⟩]⟩,
    ⟨52, 52, .proto .int (some "STDCALL") "WRP_GetDetectorInfo"
      [⟨.ptr (.named "DetectorInfo"), "value"⟩]⟩,
    ⟨53, 53, .proto .int (some "STDCALL") "WRP_GetDetectorRegion"
      [⟨.ptr (.named "DetectorRegion"), "value"⟩]⟩,
    ⟨54, 54, .proto .int (some "STDCALL") "WRP_SetProperty"
      [⟨.const (.named "String"), "property"⟩, ⟨.int, "index"⟩, ⟨.ptr (.const .void), "value"⟩]⟩,
    ⟨55, 55, .proto .int (some "STDCALL") "WRP_SetPropertyBool"
      [⟨.const (.named "String"), "property"⟩, ⟨.int, "index"⟩, ⟨.ptr (.const (.named "_bool")), "value"⟩]⟩,
    ⟨56, 56, .proto .int (some "STDCALL") "WRP_SetPropertyInteger"
      [⟨.const (.named "String"), "property"⟩, ⟨.int, "index"⟩, ⟨.ptr (.const .int), "value"⟩]⟩,
    ⟨57, 57, .proto .int (some "STDCALL") "WRP_SetPropertyDouble"
      [⟨.const (.named "String"), "property"⟩, ⟨.int, "index"⟩, ⟨.ptr (.const .double), "value"⟩]⟩,
    ⟨58, 58, .proto .int (some "STDCALL") "WRP_SetPropertyString"
      [⟨.const (.named "String"), "property"⟩, ⟨.int, "index"⟩, ⟨.const (.named "String"), "value"⟩]⟩,
    ⟨59, 59, .proto .int (some "STDCALL") "WRP_SetDetectorRegion"
      [⟨.ptr (.named "DetectorRegion"), "detectorRegion"⟩]⟩,
    ⟨60, 60, .proto .int (some "STDCALL") "WRP_SetAnalyzerRegion"
      [⟨.ptr (.named "AnalyzerRegion"), "analyzerRegion"⟩]⟩,
    ⟨62, 62, .proto .int (some "STDCALL") "WRP_Validate"
      [⟨.const (.named "String"), "elementSet"⟩, ⟨.const (.named "String"), "lensMode"⟩, ⟨.double, "passEnergy"⟩, ⟨.double, "kineticEnergy"⟩]⟩,
    ⟨64, 64, .proto .int (some "STDCALL") "WRP_ResetHW"
      []⟩,
    ⟨65, 65, .proto .int (some "STDCALL") "WRP_TestHW"
      []⟩,
    ⟨67, 67, .proto .int (some "STDCALL") "WRP_LoadInstrument"
      [⟨.const (.named "String"), "fileName"⟩]⟩,
    ⟨68, 68, .proto .int (some "STDCALL") "WRP_ZeroSupplies"
      []⟩,
    ⟨69, 69, .proto .int (some "STDCALL") "WRP_GetBindingEnergy"
      [⟨.ptr .double, "bindingEnergy"⟩]⟩,
    ⟨70, 70, .proto .int (some "STDCALL") "WRP_SetBindingEnergy"
      [⟨.const .double, "bindingEnergy"⟩]⟩,
    ⟨71, 71, .proto .int (some "STDCALL") "WRP_GetKineticEnergy"
      [⟨.ptr .double, "kinetic_energy"⟩]⟩,
    ⟨72, 72, .proto .int (some "STDCALL") "WRP_SetKineticEnergy"
      [⟨.const .double, "kineticEnergy"⟩]⟩,
    ⟨73, 73, .proto .int (some "STDCALL") "WRP_GetExcitationEnergy"
      [⟨.ptr .double, "excitationEnergy"⟩]⟩,
    ⟨74, 74, .proto .int (some "STDCALL") "WRP_SetExcitationEnergy"
      [⟨.const .double, "excitationEnergy"⟩]⟩,
    ⟨75, 75, .proto .int (some "STDCALL") "WRP_GetElementVoltage"
      [⟨.const (.named "String"), "elementName"⟩, ⟨.ptr .double, "voltage"⟩]⟩,
    ⟨76, 76, .proto .int (some "STDCALL") "WRP_SetElementVoltage"
      [⟨.const (.named "String"), "element"⟩, ⟨.const .double, "voltage"⟩]⟩,
    ⟨78, 78, .proto .int (some "STDCALL") "WRP_CheckAnalyzerRegion"
      [⟨.ptr (.named "AnalyzerRegion"), "analyzerRegion"⟩, ⟨.ptr .int, "steps"⟩, ⟨.ptr .double, "time_ms"⟩, ⟨.ptr .double, "energyStep"⟩]⟩,
    ⟨79, 79, .proto .int (some "STDCALL") "WRP_InitAcquisition"
      [⟨.const (.named "_bool"), "block_PointReady"⟩, ⟨.const (.named "_bool"), "block_RegionReady"⟩]⟩,
    ⟨80, 80, .proto .int (some "STDCALL") "WRP_StartAcquisition"
      []⟩,
    ⟨81, 81, .proto .int (some "STDCALL") "WRP_StopAcquisition"
      []⟩,
    ⟨82, 82, .proto .int (some "STDCALL") "WRP_GetStatus"
      [⟨.ptr .int, "status"⟩]⟩,
    ⟨83, 83, .proto .int (some "STDCALL") "WRP_GetAcquiredDataInteger"
      [⟨.const (.named "String"), "parameter"⟩, ⟨.int, "index"⟩, ⟨.ptr .int, "data"⟩, ⟨.ptr .int, "size"⟩]⟩,
    ⟨84, 84, .proto .int (some "STDCALL") "WRP_GetAcquiredDataDouble"
      [⟨.const (.named "String"), "parameter"⟩, ⟨.int, "index"⟩, ⟨.ptr .double, "data"⟩, ⟨.ptr .int, "size"⟩]⟩,
    ⟨85, 85, .proto .int (some "STDCALL") "WRP_GetAcquiredDataString"
      [⟨.const (.named "String"), "parameter"⟩, ⟨.int, "index"⟩, ⟨.named "String", "data"⟩, ⟨.ptr .int, "size"⟩]⟩,
    ⟨86, 86, .proto .int (some "STDCALL") "WRP_GetAcquiredDataVectorDouble"
      [⟨.const (.named "String"), "parameter"⟩, ⟨.int, "index"⟩, ⟨.ptr (.named "VectorDouble"), "data"⟩, ⟨.ptr .int, "size"⟩]⟩,
    ⟨87, 87, .proto .int (some "STDCALL") "WRP_GetAcquiredDataVectorInt32"
      [⟨.const (.named "String"), "parameter"⟩, ⟨.int, "index"⟩, ⟨.ptr (.named "VectorInt32"), "data"⟩, ⟨.ptr .int, "size"⟩]⟩,
    ⟨88, 88, .proto .int (some "STDCALL") "WRP_WaitForPointReady"
      [⟨.int, "timeout_ms"⟩]⟩,
    ⟨89, 89, .proto .int (some "STDCALL") "WRP_WaitForRegionReady"
      [⟨.int, "timeout_ms"⟩]⟩,
    ⟨90, 90, .proto .int (some "STDCALL") "WRP_ContinueAcquisition"
      []⟩ ]

/-! ## Reading the declarations -/

/-- A function prototype taken out of its entry, with the line it stands on. -/
structure Proto where
  line : Nat
  ret : CType
  conv : Option String
  name : String
  params : List Param
  deriving DecidableEq, Repr

/-- The prototype declared by an entry, if it declares one. -/
def Entry.proto? : Entry → Option Proto
  | ⟨l, _, .proto r c n ps⟩ => some ⟨l, r, c, n, ps⟩
  | _ => none

/-- All prototypes of a header, in source order. -/
def prototypes (h : List Entry) : List Proto :=
  h.filterMap Entry.proto?

/-- The prototypes that declare the function `n`. -/
def protosNamed (h : List Entry) (n : String) : List Proto :=
  (prototypes h).filter fun p => p.name == n

/-- Whether the name `s` begins with the characters of `pre`. -/
def startsWith (s pre : String) : Bool :=
  s.toList.take pre.length == pre.toList

/-- The replacement list of the object-like macro `n`, if the header has a
`#define` for it. -/
def macroBody (h : List Entry) (n : String) : Option (List String) :=
  h.findSome? fun e =>
    match e.decl with
    | .define m body => if m == n then some body else none
    | _ => none

/-- The calling convention of a prototype: its marker after macro replacement,
or nothing when the prototype has no marker. -/
def callingConvention (h : List Entry) (p : Proto) : Option (List String) :=
  p.conv.map fun c => (macroBody h c).getD [c]

/-- The type that `typedef ... n;` gives to `n`, as it is written. -/
def typedefOf (h : List Entry) (n : String) : Option CType :=
  h.findSome? fun e =>
    match e.decl with
    | .typedef t m => if m == n then some t else none
    | _ => none

/-- The members of the struct that `typedef struct { ... } n;` declares. -/
def structFields (h : List Entry) (n : String) : Option (List Field) :=
  h.findSome? fun e =>
    match e.decl with
    | .typedefStruct fs m => if m == n then some fs else none
    | _ => none

/-! ## The C rules needed to read a type -/

/-- The type denoted by a replacement list made of type-specifier keywords. -/
def typeOfTokens : List String → Option CType
  | ["void"] => some .void
  | ["char"] => some .char
  | ["int"] => some .int
  | ["double"] => some .double
  | ["unsigned", "char"] => some .unsignedChar
  | _ => none

/-- Names in scope in type position, each with the type it stands for. -/
abbrev TypeEnv := List (String × CType)

/-- Replace every identifier in type position by what it stands for; an
identifier that is not in scope is left as it is. -/
def CType.resolve (env : TypeEnv) : CType → CType
  | .named n => (env.lookup n).getD (.named n)
  | .ptr t => .ptr (t.resolve env)
  | .arr t => .arr (t.resolve env)
  | .const t => .const (t.resolve env)
  | t => t

/-- The type name a declaration brings into scope: a macro whose replacement
list is a type, a typedef, or a typedef'd struct. -/
def Decl.binding (env : TypeEnv) : Decl → Option (String × CType)
  | .define n body => (typeOfTokens body).map fun t => (n, t)
  | .typedef t n => some (n, t.resolve env)
  | .typedefStruct _ n => some (n, .record n)
  | .proto _ _ _ _ => none

/-- The type names in scope at the end of the header.  Declarations are
processed top to bottom, each one seeing only what precedes it. -/
def typeEnv (h : List Entry) : TypeEnv :=
  h.foldl
    (fun env e =>
      match e.decl.binding env with
      | some b => b :: env
      | none => env)
    []

/-- Qualify a type with `const`: on an array type the qualifier applies to the
element type, not to the array (C11 6.7.3p9). -/
def CType.qualify : CType → CType
  | .arr t => .arr t.qualify
  | t => .const t

/-- Push every `const` written in front of an array type onto its elements. -/
def CType.normalize : CType → CType
  | .const t => t.normalize.qualify
  | .ptr t => .ptr t.normalize
  | .arr t => .arr t.normalize
  | t => t

/-- A parameter declared as "array of T" is adjusted to "pointer to T"
(C11 6.7.6.3p7). -/
def CType.decay : CType → CType
  | .arr t => .ptr t
  | t => t

/-- The type a member has once macros and typedefs are resolved. -/
def fieldType (env : TypeEnv) (f : Field) : CType :=
  (f.ty.resolve env).normalize

/-- The type a parameter has in the function's type: macros and typedefs
resolved, qualifiers placed, arrays adjusted to pointers. -/
def paramType (env : TypeEnv) (p : Param) : CType :=
  (p.ty.resolve env).normalize.decay

/-- Whether a pointer or an array occurs anywhere in a type. -/
def CType.hasIndirection : CType → Bool
  | .ptr _ => true
  | .arr _ => true
  | .const t => t.hasIndirection
  | _ => false

/-- Whether a type is a pointer to an object that is not `const`. -/
def CType.isMutablePtr : CType → Bool
  | .ptr (.const _) => false
  | .ptr _ => true
  | _ => false

/-! ## Scope of type names -/

/-- The identifiers that occur in type position in a type expression. -/
def CType.names : CType → List String
  | .named n => [n]
  | .ptr t => t.names
  | .arr t => t.names
  | .const t => t.names
  | _ => []

/-- The identifiers a declaration uses in type position: the aliased type of a
typedef, the member types of a struct, the return and parameter types of a
prototype. -/
def Decl.typeNames : Decl → List String
  | .define _ _ => []
  | .typedef t _ => t.names
  | .typedefStruct fs _ => (fs.map fun f => f.ty.names).flatten
  | .proto r _ _ ps => r.names ++ (ps.map fun p => p.ty.names).flatten

/-- The type name a declaration defines, if any. -/
def Decl.definesType (d : Decl) : Option String :=
  (d.binding []).map Prod.fst

/-- Whether `n` is defined as a type name on a line before line `l`. -/
def definedBefore (h : List Entry) (l : Nat) (n : String) : Bool :=
  h.any fun d => d.decl.definesType == some n && decide (d.last < l)

/-- Every use of a type name that no earlier line of the header defines, as
(line, name). -/
def undefinedUses (h : List Entry) : List (Nat × String) :=
  (h.map fun e =>
    (e.decl.typeNames.filter fun n => !definedBefore h e.first n).map
      fun n => (e.first, n)).flatten

/-- The type name defined by the declaration that stands directly before the
declaration defining `n`. -/
def definedJustBefore : List Entry → String → Option String
  | d :: e :: rest, n =>
    if e.decl.definesType == some n then d.decl.definesType
    else definedJustBefore (e :: rest) n
  | _, _ => none

/-- Whether `ptrName` is declared as `typedef target *ptrName;` directly after the
declaration of `target`. -/
def isPointerAlias (h : List Entry) (ptrName target : String) : Bool :=
  typedefOf h ptrName == some (.ptr (.named target)) &&
    definedJustBefore h ptrName == some target

/-- The parameters whose written type mentions `String`, each with the name of
its function. -/
def stringParams (h : List Entry) : List (String × Param) :=
  ((prototypes h).map fun p =>
    (p.params.filter fun q => q.ty.names.contains "String").map
      fun q => (p.name, q)).flatten

/-! ## Vocabulary of the interface description

The definitions of this section follow the wording of the specification, not
the header; the theorems compare them with what the header declares. -/

/-- The type names in scope at the end of `seswrapper.h`. -/
def sesEnv : TypeEnv := typeEnv seswrapper

/-- What the specification says a detector capability descriptor holds. -/
inductive InfoItem where
  | timerDriven
  | channelCountX
  | channelCountY
  | maxSliceCount
  | maxChannelCount
  | frameRate
  | adcPresent
  | discriminatorPresent
  deriving DecidableEq, Repr

/-- The specification's list for the detector capability descriptor: timer
driven, channel counts along two axes, maximum slice count, maximum channel
count, frame rate, presence of ADC and of discriminator. -/
def specDetectorInfo : List InfoItem :=
  [.timerDriven, .channelCountX, .channelCountY, .maxSliceCount,
   .maxChannelCount, .frameRate, .adcPresent, .discriminatorPresent]

/-- The item a member of `DetectorInfo` holds, read off its name. -/
def InfoItem.ofField : String → Option InfoItem
  | "timerControlled_" => some .timerDriven
  | "xChannels_" => some .channelCountX
  | "yChannels_" => some .channelCountY
  | "maxSlices_" => some .maxSliceCount
  | "maxChannels_" => some .maxChannelCount
  | "frameRate_" => some .frameRate
  | "adcPresent_" => some .adcPresent
  | "discPresent_" => some .discriminatorPresent
  | _ => none

/-- What the specification says a detector region descriptor holds. -/
inductive RegionItem where
  | firstX
  | lastX
  | firstY
  | lastY
  | sliceCount
  | modeFlag
  deriving DecidableEq, Repr

/-- The specification's list for the detector region descriptor: first/last
channel bounds on two axes, slice count, mode flag. -/
def specDetectorRegion : List RegionItem :=
  [.firstX, .lastX, .firstY, .lastY, .sliceCount, .modeFlag]

/-- The item a member of `DetectorRegion` holds, read off its name. -/
def RegionItem.ofField : String → Option RegionItem
  | "firstXChannel_" => some .firstX
  | "lastXChannel_" => some .lastX
  | "firstYChannel_" => some .firstY
  | "lastYChannel_" => some .lastY
  | "slices_" => some .sliceCount
  | "adcMode_" => some .modeFlag
  | _ => none

/-- What the specification says an analyzer region descriptor holds. -/
inductive ScanItem where
  | fixedFlag
  | highEnergy
  | lowEnergy
  | centerEnergy
  | energyStep
  | dwellTime
  deriving DecidableEq, Repr

/-- The specification's list for the analyzer region descriptor: fixed or
swept, high/low/center energy, energy step, dwell time. -/
def specAnalyzerRegion : List ScanItem :=
  [.fixedFlag, .highEnergy, .lowEnergy, .centerEnergy, .energyStep, .dwellTime]

/-- The item a member of `AnalyzerRegion` holds, read off its name. -/
def ScanItem.ofField : String → Option ScanItem
  | "fixed_" => some .fixedFlag
  | "highEnergy_" => some .highEnergy
  | "lowEnergy_" => some .lowEnergy
  | "centerEnergy_" => some .centerEnergy
  | "energyStep_" => some .energyStep
  | "dwellTime_" => some .dwellTime
  | _ => none

/-- The member names of a record, in declaration order. -/
def fieldNames (h : List Entry) (n : String) : List String :=
  ((structFields h n).getD []).map Field.name

/-- The member types of a record after macro and typedef resolution, in
declaration order. -/
def fieldTypes (h : List Entry) (n : String) : List CType :=
  ((structFields h n).getD []).map (fieldType (typeEnv h))

/-- The five value kinds of generic property access. -/
inductive ValueKind where
  | untyped
  | bool
  | integer
  | double
  | string
  deriving DecidableEq, Repr

/-- All value kinds, in the order the header declares their accessors. -/
def ValueKind.all : List ValueKind :=
  [.untyped, .bool, .integer, .double, .string]

/-- The part of the function name that selects the kind. -/
def ValueKind.suffix : ValueKind → String
  | .untyped => ""
  | .bool => "Bool"
  | .integer => "Integer"
  | .double => "Double"
  | .string => "String"

/-- The object type a value pointer of the kind points to: `void` for the
untyped accessor, `unsigned char` for Bool, `char` for a character buffer. -/
def ValueKind.pointee : ValueKind → CType
  | .untyped => .void
  | .bool => .unsignedChar
  | .integer => .int
  | .double => .double
  | .string => .char

/-- The four quantities that have a dedicated getter and setter. -/
inductive Quantity where
  | bindingEnergy
  | kineticEnergy
  | excitationEnergy
  | elementVoltage
  deriving DecidableEq, Repr

/-- The part of the function name that selects the quantity. -/
def Quantity.stem : Quantity → String
  | .bindingEnergy => "BindingEnergy"
  | .kineticEnergy => "KineticEnergy"
  | .excitationEnergy => "ExcitationEnergy"
  | .elementVoltage => "ElementVoltage"

/-- The parameters that precede the value: the element name for the voltage
pair, nothing for the three energies. -/
def Quantity.leading : Quantity → List CType
  | .elementVoltage => [.const (.named "String")]
  | _ => []

/-- The String parameters that carry an input: property name, element set,
lens mode, element name, file name, acquired-data parameter name, and the value
of `WRP_SetPropertyString`. -/
def carriesInput (fn : String) (q : Param) : Bool :=
  ["property", "elementSet", "lensMode", "elementName", "element", "fileName",
    "parameter"].contains q.name ||
  (fn == "WRP_SetPropertyString" && q.name == "value")

/-- The two String parameters that are output buffers. -/
def isOutputBuffer (fn : String) (q : Param) : Bool :=
  (fn == "WRP_GetPropertyString" && q.name == "value") ||
  (fn == "WRP_GetAcquiredDataString" && q.name == "data")

/-- Whether the last parameter of a prototype, as the function type has it, is a
pointer to a non-const object. -/
def lastIsMutablePtr (env : TypeEnv) (p : Proto) : Bool :=
  p.params.getLast?.map (fun a => (paramType env a).isMutablePtr) == some true

/-- Whether the last parameter of a prototype, as the function type has it, is a
`const double` passed by value. -/
def lastIsConstDoubleByValue (env : TypeEnv) (p : Proto) : Bool :=
  p.params.getLast?.map (paramType env) == some (.const .double)

/-- Whether every prototype of the function `fn` has the parameter
`int *size`. -/
def takesSize (h : List Entry) (fn : String) : Bool :=
  (protosNamed h fn).all fun p => p.params.contains ⟨.ptr .int, "size"⟩

/-! ## Two prototypes of the header, written out -/

/-- The prototype on line 82. -/
def wrpGetStatus : Proto :=
  ⟨82, .int, some "STDCALL", "WRP_GetStatus", [⟨.ptr .int, "status"⟩]⟩

/-- The prototype on line 88. -/
def wrpWaitForPointReady : Proto :=
  ⟨88, .int, some "STDCALL", "WRP_WaitForPointReady", [⟨.int, "timeout_ms"⟩]⟩

/-! ## Well-formedness of the embedding -/

/-- Declarations are listed in source order and do not overlap. -/
theorem seswrapper_lines_increasing :
    (∀ e ∈ seswrapper, 1 ≤ e.first ∧ e.first ≤ e.last ∧ e.last ≤ 90) ∧
    seswrapper.Pairwise (fun a b : Entry => a.last < b.first) := by
  decide

/-- No function is declared twice, so a function name selects at most one
prototype. -/
theorem prototype_names_nodup :
    ((prototypes seswrapper).map Proto.name).Nodup := by
  decide

/-! ## Return type and calling convention -/

/-- C1: every function prototype of seswrapper.h returns `int`.  There are 42
prototypes, each named `WRP_...`, the first being `WRP_Initialize` and the last
`WRP_ContinueAcquisition`; in particular none returns `void`, a pointer, a
`double` or a struct. -/
theorem C1_every_prototype_returns_int (p : Proto) (hp : p ∈ prototypes seswrapper) :
    p.ret = CType.int ∧ p.ret.resolve sesEnv = CType.int ∧
    startsWith p.name "WRP_" = true ∧
    (prototypes seswrapper).length = 42 ∧
    ((prototypes seswrapper).map Proto.name).head? = some "WRP_Initialize" ∧
    ((prototypes seswrapper).map Proto.name).getLast? = some "WRP_ContinueAcquisition" := by
  revert p
  decide

/-- C1 at the prototype of `WRP_GetStatus`. -/
theorem C1_every_prototype_returns_int_witness :
    wrpGetStatus ∈ prototypes seswrapper ∧ wrpGetStatus.ret = CType.int :=
  ⟨by decide, (C1_every_prototype_returns_int wrpGetStatus (by decide)).1⟩

/-- C2: every function prototype of seswrapper.h carries the marker `STDCALL`,
and the header defines `STDCALL` as `__stdcall`. -/
theorem C2_every_prototype_is_stdcall (p : Proto) (hp : p ∈ prototypes seswrapper) :
    p.conv = some "STDCALL" ∧ macroBody seswrapper "STDCALL" = some ["__stdcall"] ∧
    callingConvention seswrapper p = some ["__stdcall"] := by
  revert p
  decide

/-- C2 at the prototype of `WRP_WaitForPointReady`. -/
theorem C2_every_prototype_is_stdcall_witness :
    wrpWaitForPointReady ∈ prototypes seswrapper ∧
    wrpWaitForPointReady.conv = some "STDCALL" ∧
    macroBody seswrapper "STDCALL" = some ["__stdcall"] ∧
    callingConvention seswrapper wrpWaitForPointReady = some ["__stdcall"] :=
  ⟨by decide, C2_every_prototype_is_stdcall wrpWaitForPointReady (by decide)⟩

/-! ## The three records -/

/-- C3: `DetectorInfo` has exactly the eight members timerControlled_ (_bool),
xChannels_, yChannels_, maxSlices_, maxChannels_, frameRate_ (int),
adcPresent_, discPresent_ (_bool), in this order; `_bool` is `unsigned char`;
no member is a pointer or an array; the order is the one in which the
specification lists the contents. -/
theorem C3_detector_info_layout :
    structFields seswrapper "DetectorInfo" =
      some [⟨.named "_bool", "timerControlled_"⟩, ⟨.int, "xChannels_"⟩,
            ⟨.int, "yChannels_"⟩, ⟨.int, "maxSlices_"⟩, ⟨.int, "maxChannels_"⟩,
            ⟨.int, "frameRate_"⟩, ⟨.named "_bool", "adcPresent_"⟩,
            ⟨.named "_bool", "discPresent_"⟩] ∧
    macroBody seswrapper "_bool" = some ["unsigned", "char"] ∧
    fieldTypes seswrapper "DetectorInfo" =
      [.unsignedChar, .int, .int, .int, .int, .int, .unsignedChar, .unsignedChar] ∧
    (fieldTypes seswrapper "DetectorInfo").any CType.hasIndirection = false ∧
    (fieldNames seswrapper "DetectorInfo").map InfoItem.ofField =
      specDetectorInfo.map some := by
  decide

/-- C4: `DetectorRegion` has exactly the six members firstXChannel_,
lastXChannel_, firstYChannel_, lastYChannel_, slices_ (int) and adcMode_
(_bool), in this order; no member is a pointer or an array; the order is the
one in which the specification lists the contents. -/
theorem C4_detector_region_layout :
    structFields seswrapper "DetectorRegion" =
      some [⟨.int, "firstXChannel_"⟩, ⟨.int, "lastXChannel_"⟩,
            ⟨.int, "firstYChannel_"⟩, ⟨.int, "lastYChannel_"⟩,
            ⟨.int, "slices_"⟩, ⟨.named "_bool", "adcMode_"⟩] ∧
    fieldTypes seswrapper "DetectorRegion" =
      [.int, .int, .int, .int, .int, .unsignedChar] ∧
    (fieldTypes seswrapper "DetectorRegion").any CType.hasIndirection = false ∧
    (fieldNames seswrapper "DetectorRegion").map RegionItem.ofField =
      specDetectorRegion.map some := by
  decide

/-- C5: `AnalyzerRegion` has exactly the six members fixed_ (_bool),
highEnergy_, lowEnergy_, centerEnergy_, energyStep_ (double) and dwellTime_
(int), in this order; no member is a pointer or an array; the order is the one
in which the specification lists the contents. -/
theorem C5_analyzer_region_layout :
    structFields seswrapper "AnalyzerRegion" =
      some [⟨.named "_bool", "fixed_"⟩, ⟨.double, "highEnergy_"⟩,
            ⟨.double, "lowEnergy_"⟩, ⟨.double, "centerEnergy_"⟩,
            ⟨.double, "energyStep_"⟩, ⟨.int, "dwellTime_"⟩] ∧
    fieldTypes seswrapper "AnalyzerRegion" =
      [.unsignedChar, .double, .double, .double, .double, .int] ∧
    (fieldTypes seswrapper "AnalyzerRegion").any CType.hasIndirection = false ∧
    (fieldNames seswrapper "AnalyzerRegion").map ScanItem.ofField =
      specAnalyzerRegion.map some := by
  decide

/-! ## Parameter lists -/

/-- C6: generic property access is declared for the same five value kinds in
both directions.  For each kind the getter has the parameters
(const String property, int index, value, int *size), where value is a pointer
to a non-const object of the kind and size, the last parameter, is a non-const
pointer; the setter has the parameters (const String property, int index,
value), where value is a pointer to a const object of the kind, and has no size
parameter. -/
theorem C6_property_accessor_signatures (k : ValueKind) :
    (∃ v,
      (protosNamed seswrapper ("WRP_GetProperty" ++ k.suffix)).map Proto.params =
        [[⟨.const (.named "String"), "property"⟩, ⟨.int, "index"⟩, ⟨v, "value"⟩,
          ⟨.ptr .int, "size"⟩]] ∧
      paramType sesEnv ⟨v, "value"⟩ = .ptr k.pointee ∧
      (paramType sesEnv ⟨v, "value"⟩).isMutablePtr = true) ∧
    (∃ v,
      (protosNamed seswrapper ("WRP_SetProperty" ++ k.suffix)).map Proto.params =
        [[⟨.const (.named "String"), "property"⟩, ⟨.int, "index"⟩, ⟨v, "value"⟩]] ∧
      paramType sesEnv ⟨v, "value"⟩ = .ptr (.const k.pointee)) ∧
    (protosNamed seswrapper ("WRP_GetProperty" ++ k.suffix)).all
      (fun p => p.params.getLast? == some ⟨.ptr .int, "size"⟩ &&
        lastIsMutablePtr sesEnv p) = true ∧
    (protosNamed seswrapper ("WRP_SetProperty" ++ k.suffix)).all
      (fun p => !(p.params.any fun a => a.name == "size")) = true ∧
    ((prototypes seswrapper).map Proto.name).filter (startsWith · "WRP_GetProperty") =
      ValueKind.all.map (fun j => "WRP_GetProperty" ++ j.suffix) ∧
    ((prototypes seswrapper).map Proto.name).filter (startsWith · "WRP_SetProperty") =
      ValueKind.all.map (fun j => "WRP_SetProperty" ++ j.suffix) := by
  cases k
  · exact ⟨⟨.ptr .void, by decide⟩, ⟨.ptr (.const .void), by decide⟩, by decide⟩
  · exact ⟨⟨.ptr (.named "_bool"), by decide⟩,
      ⟨.ptr (.const (.named "_bool")), by decide⟩, by decide⟩
  · exact ⟨⟨.ptr .int, by decide⟩, ⟨.ptr (.const .int), by decide⟩, by decide⟩
  · exact ⟨⟨.ptr .double, by decide⟩, ⟨.ptr (.const .double), by decide⟩, by decide⟩
  · exact ⟨⟨.named "String", by decide⟩, ⟨.const (.named "String"), by decide⟩, by decide⟩

/-- C7: `String` is `typedef char String[]`, and every parameter declared with
it is declared `String` or `const String`, a raw character array.  A String
parameter is either one of the inputs (property name, element set, lens mode,
element name, file name, acquired-data parameter name, value of
`WRP_SetPropertyString`) and then const-qualified, or one of the two output
buffers (`value` of `WRP_GetPropertyString`, `data` of
`WRP_GetAcquiredDataString`), which are the only non-const ones and whose
functions also take `int *size`. -/
theorem C7_string_parameters (x : String × Param) (hx : x ∈ stringParams seswrapper) :
    typedefOf seswrapper "String" = some (.arr .char) ∧
    ((carriesInput x.1 x.2 = true ∧ isOutputBuffer x.1 x.2 = false ∧
        x.2.ty = .const (.named "String") ∧
        x.2.ty.resolve sesEnv = .const (.arr .char) ∧
        paramType sesEnv x.2 = .ptr (.const .char)) ∨
     (isOutputBuffer x.1 x.2 = true ∧ carriesInput x.1 x.2 = false ∧
        x.2.ty = .named "String" ∧
        x.2.ty.resolve sesEnv = .arr .char ∧
        paramType sesEnv x.2 = .ptr .char ∧
        takesSize seswrapper x.1 = true)) ∧
    (stringParams seswrapper).filter (fun y => y.2.ty != .const (.named "String")) =
      [("WRP_GetPropertyString", ⟨.named "String", "value"⟩),
       ("WRP_GetAcquiredDataString", ⟨.named "String", "data"⟩)] ∧
    (protosNamed seswrapper "WRP_GetPropertyString").length = 1 ∧
    (protosNamed seswrapper "WRP_GetAcquiredDataString").length = 1 := by
  revert x
  decide

/-- C7 at the output buffer of `WRP_GetAcquiredDataString`. -/
theorem C7_string_parameters_witness :
    (("WRP_GetAcquiredDataString", ⟨.named "String", "data"⟩) : String × Param) ∈
      stringParams seswrapper ∧
    typedefOf seswrapper "String" = some (.arr .char) ∧
    takesSize seswrapper "WRP_GetAcquiredDataString" = true :=
  have h := C7_string_parameters ("WRP_GetAcquiredDataString", ⟨.named "String", "data"⟩)
    (by decide)
  ⟨by decide, h.1, by decide⟩

/-- C8: for each of binding energy, kinetic energy, excitation energy and
element voltage the header declares exactly one getter and exactly one setter.
The getter returns the value through a non-const `double *`, the setter takes a
`const double` by value, and only the element-voltage pair has an additional
leading `const String` parameter. -/
theorem C8_energy_and_voltage_accessors (q : Quantity) :
    (protosNamed seswrapper ("WRP_Get" ++ q.stem)).map
        (fun p => p.params.map Param.ty) = [q.leading ++ [.ptr .double]] ∧
    (protosNamed seswrapper ("WRP_Set" ++ q.stem)).map
        (fun p => p.params.map Param.ty) = [q.leading ++ [.const .double]] ∧
    (protosNamed seswrapper ("WRP_Get" ++ q.stem)).all (lastIsMutablePtr sesEnv) = true ∧
    (protosNamed seswrapper ("WRP_Set" ++ q.stem)).all
      (lastIsConstDoubleByValue sesEnv) = true ∧
    (q.leading = [] ↔ q ≠ .elementVoltage) := by
  cases q <;> decide

/-! ## Scope of type names -/

/-- C10: the header is not self-contained.  Line 8 declares
`typedef Vector *PVectorDouble;` and no line defines `Vector`; this is the only
use of an undefined type name.  `PVectorDouble` is therefore not a pointer to
`VectorDouble`, the type defined just before it, whereas each of the other five
pointer aliases is a pointer to the like-named type defined just before it. -/
theorem C10_pvectordouble_names_undefined_type :
    undefinedUses seswrapper = [(8, "Vector")] ∧
    typedefOf seswrapper "PVectorDouble" = some (.ptr (.named "Vector")) ∧
    definedJustBefore seswrapper "PVectorDouble" = some "VectorDouble" ∧
    isPointerAlias seswrapper "PVectorDouble" "VectorDouble" = false ∧
    (["String", "VectorInt32", "DetectorInfo", "DetectorRegion", "AnalyzerRegion"].all
      fun t => isPointerAlias seswrapper ("P" ++ t) t) = true ∧
    ((prototypes seswrapper).all fun p =>
      !(p.params.any fun a => a.ty.names.contains "PVectorDouble")) = true := by
  decide

end SesWrapper
